import Mathlib

/-!
Verification of the sandboxed file service (`app/main.py`) and the container
control client (`app/unraid.py`).

Paths are modelled as lists of components: an absolute POSIX path `/a/b`
is `["a", "b"]`.  The filesystem is an association list from absolute
component lists to nodes.  Remote GraphQL calls are modelled by an
environment value recording the outcome of each network call.  String
primitives (`lstrip`, split on `/`, `startswith`, `lower`, string
comparison) are implemented over character lists so that every definition
evaluates by reduction.
-/

/-- An HTTP error as raised by `fastapi.HTTPException`: a status code and a
detail message. -/
structure HTTPError where
  status : Nat
  detail : String
deriving DecidableEq, Repr

/-- `subpath.lstrip("/")`: drop every leading slash character. -/
def lstripSlash (s : String) : String :=
  String.mk (s.data.dropWhile (· == '/'))

/-- Helper for `splitPath`: split a character list on `/`, accumulating the
current component in reverse. -/
def splitCharsAux : List Char → List Char → List String
  | [], cur => [String.mk cur.reverse]
  | c :: rest, cur =>
    if c == '/' then String.mk cur.reverse :: splitCharsAux rest []
    else splitCharsAux rest (c :: cur)

/-- Split a path string on `/` into raw components, as `pathlib` parses it
(the same as Python's `s.split("/")`). -/
def splitPath (s : String) : List String :=
  splitCharsAux s.data []

/-- One step of POSIX path resolution: empty and `.` components are skipped,
`..` removes the last component (staying at the filesystem root when already
there), and any other component is appended. -/
def resolveStep (acc : List String) (part : String) : List String :=
  if part = "" || part = "." then acc
  else if part = ".." then acc.dropLast
  else acc ++ [part]

/-- `Path.resolve()` without symlinks: fold resolution over the raw
components of an absolute path. -/
def resolveComps (parts : List String) : List String :=
  parts.foldl resolveStep []

/-- The `target` computed by `safe_path` for a nonempty subpath:
`(PLUGINS_PATH / subpath.lstrip("/")).resolve()`. -/
def resolvedTarget (root : List String) (subpath : String) : List String :=
  resolveComps (root ++ splitPath (lstripSlash subpath))

/-- `safe_path` from `app/main.py`: the empty subpath returns the (already
resolved) plugins root; otherwise leading slashes are stripped, the input is
joined to the root and fully resolved, and the result is accepted only when
`relative_to` the resolved root succeeds, i.e. when the root's components are
a prefix of the resolved target's components; otherwise an HTTP 400
"Invalid path" error is raised. -/
def safe_path (root : List String) (subpath : String) : Except HTTPError (List String) :=
  if subpath = "" then .ok root
  else if root.isPrefixOf (resolvedTarget root subpath) then .ok (resolvedTarget root subpath)
  else .error ⟨400, "Invalid path"⟩

/-- A container as listed by the remote GraphQL read query: its `names` list
and its (possibly absent) `state` field, read with
`container.get("state", "UNKNOWN")`. -/
structure RemoteContainer where
  names : List String
  state : Option String
deriving DecidableEq, Repr

/-- The `ContainerStatus` dataclass from `app/unraid.py`. -/
structure ContainerStatus where
  name : String
  state : String
deriving DecidableEq, Repr

/-- The match test inside `get_container_status`:
`f"/{container_name}" in names or container_name in names`. -/
def nameMatches (container_name : String) (c : RemoteContainer) : Bool :=
  c.names.contains ("/" ++ container_name) || c.names.contains container_name

/-- `get_container_status` from `app/unraid.py`, applied to the parsed
containers list of the read query: the first container whose names contain
the queried name (with or without the remote's leading slash) yields a
`ContainerStatus` carrying the queried name and the remote-reported state
(defaulting to "UNKNOWN"); with no match the result is `none`. -/
def get_container_status (containers : List RemoteContainer) (container_name : String) :
    Option ContainerStatus :=
  match containers.find? (nameMatches container_name) with
  | some c => some ⟨container_name, c.state.getD "UNKNOWN"⟩
  | none => none

/-- A network-level action performed by the container client. -/
inductive NetEvent
  | mutStart (name : String)
  | mutStop (name : String)
  | readStatus
  | sleep (seconds : Nat)
deriving DecidableEq, Repr

/-- Remote outcomes for one mutation-then-verify operation: the result of the
mutation query (whose value the code never inspects) and the result of the
follow-up status read (the parsed containers list, or a transport error
raised by `_query`). -/
structure MutEnv where
  mutationOutcome : Except String Unit
  readOutcome : Except String (List RemoteContainer)

/-- `start_container` from `app/unraid.py`: issue the start mutation with any
raised error swallowed (`try ... except Exception: pass`), then verify with a
status read; the result is `true` iff the container is present in state
RUNNING.  A transport error raised by the verification read propagates.  The
second component is the trace of network actions performed. -/
def start_container (env : MutEnv) (container_name : String) :
    Except String Bool × List NetEvent :=
  let _ := env.mutationOutcome
  match env.readOutcome with
  | .error e => (.error e, [.mutStart container_name, .readStatus])
  | .ok containers =>
      (.ok (match get_container_status containers container_name with
            | some s => s.state == "RUNNING"
            | none => false),
       [.mutStart container_name, .readStatus])

/-- `stop_container` from `app/unraid.py`: as `start_container` but issuing
the stop mutation and verifying state EXITED. -/
def stop_container (env : MutEnv) (container_name : String) :
    Except String Bool × List NetEvent :=
  let _ := env.mutationOutcome
  match env.readOutcome with
  | .error e => (.error e, [.mutStop container_name, .readStatus])
  | .ok containers =>
      (.ok (match get_container_status containers container_name with
            | some s => s.state == "EXITED"
            | none => false),
       [.mutStop container_name, .readStatus])

/-- Environment for `restart_container`: remote outcomes for the stop phase
and for the start phase. -/
structure RestartEnv where
  stopEnv : MutEnv
  startEnv : MutEnv

/-- `restart_container` from `app/unraid.py`: call `stop_container`, sleep
2 seconds, call `start_container`, and return start's result.  An exception
escaping `stop_container` (a transport error of its verification read)
propagates before the sleep and the start are reached. -/
def restart_container (env : RestartEnv) (container_name : String) :
    Except String Bool × List NetEvent :=
  match stop_container env.stopEnv container_name with
  | (.error e, ts) => (.error e, ts)
  | (.ok _, ts) =>
      match start_container env.startEnv container_name with
      | (rr, tr) => (rr, ts ++ [.sleep 2] ++ tr)

deriving instance DecidableEq for Except

/-- A filesystem node: a regular file with its content bytes and modification
time, or a directory with its modification time. -/
inductive FSNode
  | file (content : List Nat) (mtime : Nat)
  | dir (mtime : Nat)
deriving DecidableEq, Repr

/-- A filesystem: an association list from absolute paths (component lists)
to nodes. -/
abbrev FS := List (List String × FSNode)

/-- The node at a path, if any. -/
def FS.lookup (fs : FS) (p : List String) : Option FSNode :=
  (fs.find? (fun e => e.1 == p)).map (fun e => e.2)

/-- `Path.exists()`. -/
def FS.pathExists (fs : FS) (p : List String) : Bool :=
  (fs.lookup p).isSome

/-- `Path.is_dir()`. -/
def FS.isDir (fs : FS) (p : List String) : Bool :=
  match fs.lookup p with
  | some (.dir _) => true
  | _ => false

/-- `Path.is_file()`. -/
def FS.isFile (fs : FS) (p : List String) : Bool :=
  match fs.lookup p with
  | some (.file _ _) => true
  | _ => false

/-- Write or overwrite the node at a path (`write_bytes` / `mkdir`). -/
def FS.setNode (fs : FS) (p : List String) (n : FSNode) : FS :=
  (p, n) :: fs.filter (fun e => !(e.1 == p))

/-- Remove the node at a path (`unlink` / `rmdir`). -/
def FS.remove (fs : FS) (p : List String) : FS :=
  fs.filter (fun e => !(e.1 == p))

/-- `p.iterdir()`: the entries whose path extends `p` by exactly one
component. -/
def FS.children (fs : FS) (p : List String) : List (List String × FSNode) :=
  fs.filter (fun e => e.1.length == p.length + 1 && p.isPrefixOf e.1)

/-- `Path(s).name` for a POSIX path: `pathlib` drops empty and `.`
components when parsing, and `.name` is the last remaining component (the
empty string when none remain). -/
def pathName (s : String) : String :=
  (((splitPath s).filter (fun p => !(p == "") && !(p == "."))).getLast?).getD ""

/-- `s.startswith(".")`. -/
def startsWithDot (s : String) : Bool :=
  match s.data with
  | [] => false
  | c :: _ => c == '.'

/-- Python's `str.lower()` on one character (ASCII case mapping, the only
case relevant to the code's inputs). -/
def charLower (c : Char) : Char :=
  if 65 ≤ c.toNat ∧ c.toNat ≤ 90 then Char.ofNat (c.toNat + 32) else c

/-- Python's `str.lower()`. -/
def strLower (s : String) : String :=
  String.mk (s.data.map charLower)

/-- Python's `<` on strings: lexicographic comparison by code point, a
proper-prefix being smaller. -/
def charListLt : List Char → List Char → Bool
  | _, [] => false
  | [], _ :: _ => true
  | a :: as, b :: bs =>
    if a = b then charListLt as bs else decide (a.toNat < b.toNat)

/-- Python's `<` on strings. -/
def strLt (a b : String) : Bool :=
  charListLt a.data b.data

/-- A directory listing entry as built by `list_files`. -/
structure Entry where
  name : String
  type : String
  size : Option Nat
  modified : Nat
deriving DecidableEq, Repr

/-- The ordering induced by the Python sort key
`(0 if type == "folder" else 1, name.lower())`: folders before files, then
case-insensitive name ascending (as non-strict lexicographic order on the
key pair). -/
def entryLe (a b : Entry) : Bool :=
  ((a.type == "folder") && !(b.type == "folder"))
    || (((a.type == "folder") == (b.type == "folder"))
        && !(strLt (strLower b.name) (strLower a.name)))

/-- `entryLe` as a relation. -/
def entryRel (a b : Entry) : Prop :=
  entryLe a b = true

instance entryRelDec : DecidableRel entryRel :=
  fun a b => inferInstanceAs (Decidable (entryLe a b = true))

/-- `items.sort(key=lambda x: (0 if x["type"] == "folder" else 1,
x["name"].lower()))`: Python's `list.sort` is a stable sort by the key, so it
is modelled by insertion sort (stable) over `entryRel`. -/
def entrySort (items : List Entry) : List Entry :=
  List.insertionSort entryRel items

/-- The listing entry for one child of a directory: name is the last path
component, folders report no size, files report their byte count. -/
def entryOf (child : List String × FSNode) : Entry :=
  match child with
  | (p, .file content m) => ⟨p.getLastD "", "file", some content.length, m⟩
  | (p, .dir m) => ⟨p.getLastD "", "folder", none, m⟩

/-- Join path components with `/` (Python's `"/".join(parts)` and
`str(Path)`). -/
def joinSlash : List String → String
  | [] => ""
  | [p] => p
  | p :: rest => p ++ "/" ++ joinSlash rest

/-- One breadcrumb: a component name and the cumulative relative path. -/
structure Crumb where
  name : String
  path : String
deriving DecidableEq, Repr

/-- The response of `list_files`. -/
structure ListResponse where
  path : String
  breadcrumbs : List Crumb
  items : List Entry
deriving DecidableEq, Repr

/-- `list_files` from `app/main.py`: resolve the path, fail 404 when it does
not exist and 400 "Not a directory" when it is not a directory, then return
the relative path, the breadcrumbs, and the children entries sorted with
folders first and case-insensitive names ascending. -/
def list_files (root : List String) (fs : FS) (path : String) :
    Except HTTPError ListResponse :=
  match safe_path root path with
  | .error e => .error e
  | .ok target =>
    if !fs.pathExists target then .error ⟨404, "Directory not found"⟩
    else if !fs.isDir target then .error ⟨400, "Not a directory"⟩
    else
      let rel := target.drop root.length
      .ok ⟨joinSlash rel,
           (List.range rel.length).map
             (fun i => ⟨(rel.drop i).headD "", joinSlash (rel.take (i + 1))⟩),
           entrySort ((fs.children target).map entryOf)⟩

/-- Result of a successful upload: the sanitized filename and the byte
count. -/
structure UploadResult where
  filename : String
  size : Nat
deriving DecidableEq, Repr

/-- `upload_file` from `app/main.py`: reject an empty supplied filename,
resolve the target directory (404 when missing, 400 when not a directory),
sanitize the filename to `Path(filename).name`, reject it when empty or
dot-prefixed, and write the content bytes under the sanitized name in the
target directory, overwriting any existing file.  `now` is the modification
time the filesystem assigns to the written file. -/
def upload_file (root : List String) (fs : FS) (filename path : String)
    (content : List Nat) (now : Nat) : Except HTTPError (UploadResult × FS) :=
  if filename = "" then .error ⟨400, "No filename provided"⟩
  else
    match safe_path root path with
    | .error e => .error e
    | .ok target_dir =>
      if !fs.pathExists target_dir then .error ⟨404, "Directory not found"⟩
      else if !fs.isDir target_dir then .error ⟨400, "Not a directory"⟩
      else if pathName filename = "" || startsWithDot (pathName filename) then
        .error ⟨400, "Invalid filename"⟩
      else
        .ok (⟨pathName filename, content.length⟩,
             fs.setNode (target_dir ++ [pathName filename]) (.file content now))

/-- `create_folder` from `app/main.py`: resolve the parent (404 when absent —
the check is `exists()`, not `is_dir()`), sanitize the folder name as upload
does, fail 400 when the target already exists, then `mkdir`; when the parent
exists but is not a directory the `mkdir` call itself raises
`NotADirectoryError`, which the handler reports as a generic 500. -/
def create_folder (root : List String) (fs : FS) (name path : String) (now : Nat) :
    Except HTTPError (String × FS) :=
  match safe_path root path with
  | .error e => .error e
  | .ok target_dir =>
    if !fs.pathExists target_dir then .error ⟨404, "Parent directory not found"⟩
    else if pathName name = "" || startsWithDot (pathName name) then
      .error ⟨400, "Invalid folder name"⟩
    else if fs.pathExists (target_dir ++ [pathName name]) then
      .error ⟨400, "Folder already exists"⟩
    else if fs.isDir target_dir then
      .ok (pathName name, fs.setNode (target_dir ++ [pathName name]) (.dir now))
    else .error ⟨500, "NotADirectoryError"⟩

/-- `delete_item` from `app/main.py`: require a nonempty path, resolve it,
fail 404 when the target does not exist, fail 400 when the resolved target
equals the resolved root, remove a file unconditionally, and remove a
directory only when `iterdir()` finds no children (otherwise 400
"Folder is not empty"). -/
def delete_item (root : List String) (fs : FS) (path : String) :
    Except HTTPError (String × FS) :=
  if path = "" then .error ⟨400, "Path required"⟩
  else
    match safe_path root path with
    | .error e => .error e
    | .ok target =>
      if !fs.pathExists target then .error ⟨404, "Item not found"⟩
      else if target == root then .error ⟨400, "Cannot delete root directory"⟩
      else
        match fs.lookup target with
        | some (.file _ _) => .ok (path, fs.remove target)
        | some (.dir _) =>
          if !(fs.children target).isEmpty then .error ⟨400, "Folder is not empty"⟩
          else .ok (path, fs.remove target)
        | none => .ok (path, fs)

/-! ## Helper lemmas -/

/-- `l.isPrefixOf l` always holds. -/
theorem isPrefixOf_self (l : List String) : l.isPrefixOf l = true := by
  induction l with
  | nil => rfl
  | cons a as ih => simp [List.isPrefixOf, ih]

/-- `isPrefixOf` is preserved by appending on the right. -/
theorem isPrefixOf_append (l t s : List String) (h : l.isPrefixOf t = true) :
    l.isPrefixOf (t ++ s) = true := by
  induction l generalizing t with
  | nil => cases t ++ s <;> rfl
  | cons a as ih =>
    cases t with
    | nil => simp [List.isPrefixOf] at h
    | cons b bs =>
      simp only [List.isPrefixOf, Bool.and_eq_true] at h
      simp only [List.cons_append, List.isPrefixOf, Bool.and_eq_true]
      exact ⟨h.1, ih bs h.2⟩

/-- A list never equals itself extended by one component. -/
theorem self_ne_append_singleton (t : List String) (n : String) : t ≠ t ++ [n] := by
  intro h
  have h2 := congrArg List.length h
  simp at h2

/-- Whenever `safe_path` succeeds, the returned path starts with the root. -/
theorem safe_path_ok_isPrefixOf (root : List String) (subpath : String)
    (t : List String) (h : safe_path root subpath = .ok t) :
    root.isPrefixOf t = true := by
  by_cases he : subpath = ""
  · simp only [safe_path, he, if_true, Except.ok.injEq] at h
    subst h
    exact isPrefixOf_self root
  · cases hb : root.isPrefixOf (resolvedTarget root subpath) with
    | true =>
      simp only [safe_path, he, if_false, hb, if_true, Except.ok.injEq] at h
      subst h
      exact hb
    | false => simp [safe_path, he, hb] at h

/-- The only error `safe_path` ever produces is HTTP 400 "Invalid path". -/
theorem safe_path_error_eq (root : List String) (subpath : String)
    (e : HTTPError) (h : safe_path root subpath = .error e) :
    e = ⟨400, "Invalid path"⟩ := by
  by_cases he : subpath = ""
  · simp [safe_path, he] at h
  · cases hb : root.isPrefixOf (resolvedTarget root subpath) with
    | true => simp [safe_path, he, hb] at h
    | false =>
      simp only [safe_path, he, if_false, hb, Bool.false_eq_true, Except.error.injEq] at h
      exact h.symm

/-- For a nonempty subpath, `safe_path` succeeds with the fully resolved path
exactly when that resolved path lies inside (or equals) the root, and fails
with the 400 "Invalid path" error exactly when it does not. -/
theorem safe_path_cases (root : List String) (subpath : String) (hne : subpath ≠ "") :
    (safe_path root subpath = .ok (resolvedTarget root subpath)
      ↔ root.isPrefixOf (resolvedTarget root subpath) = true)
    ∧ (safe_path root subpath = .error ⟨400, "Invalid path"⟩
      ↔ root.isPrefixOf (resolvedTarget root subpath) = false) := by
  cases hb : root.isPrefixOf (resolvedTarget root subpath) with
  | true => simp [safe_path, hne, hb]
  | false => simp [safe_path, hne, hb]

/-- Folding `resolveStep` over components that are not empty, `.` or `..`
just appends them. -/
theorem foldl_resolveStep_normal (parts : List String) (acc : List String)
    (h : ∀ c ∈ parts, c ≠ "" ∧ c ≠ "." ∧ c ≠ "..") :
    parts.foldl resolveStep acc = acc ++ parts := by
  induction parts generalizing acc with
  | nil => simp
  | cons p ps ih =>
    have hp := h p (List.mem_cons_self p ps)
    have hstep : resolveStep acc p = acc ++ [p] := by
      simp [resolveStep, hp.1, hp.2.1, hp.2.2]
    rw [List.foldl_cons, hstep, ih (acc ++ [p]) (fun c hc => h c (List.mem_cons_of_mem p hc))]
    simp

/-- For a root whose components are ordinary names, the input `"."` resolves
to the root itself, so `safe_path` accepts it with the root as target. -/
theorem safe_path_dot (root : List String)
    (hnorm : ∀ c ∈ root, c ≠ "" ∧ c ≠ "." ∧ c ≠ "..") :
    safe_path root "." = .ok root := by
  have hres : resolvedTarget root "." = root := by
    show resolveComps (root ++ splitPath (lstripSlash ".")) = root
    have hsplit : splitPath (lstripSlash ".") = ["."] := rfl
    rw [hsplit]
    show (root ++ ["."]).foldl resolveStep [] = root
    rw [List.foldl_append, foldl_resolveStep_normal root [] hnorm]
    rfl
  simp [safe_path, hres, isPrefixOf_self]

/-- The match test holds exactly when the names list contains the queried
name, with or without a leading slash. -/
theorem nameMatches_iff (name : String) (c : RemoteContainer) :
    nameMatches name c = true ↔ ("/" ++ name) ∈ c.names ∨ name ∈ c.names := by
  simp [nameMatches]

/-- Looking up the path just written returns the written node. -/
theorem FS.lookup_setNode_self (fs : FS) (p : List String) (n : FSNode) :
    (fs.setNode p n).lookup p = some n := by
  simp [FS.lookup, FS.setNode, List.find?]

/-- Looking up any other path is unaffected by a write. -/
theorem FS.lookup_setNode_ne (fs : FS) (p q : List String) (n : FSNode)
    (h : q ≠ p) : (fs.setNode p n).lookup q = fs.lookup q := by
  have hb : (p == q) = false := by
    simp only [beq_eq_false_iff_ne]
    exact fun hpq => h hpq.symm
  simp only [FS.lookup, FS.setNode, List.find?, hb]
  induction fs with
  | nil => simp
  | cons e rest ih =>
    by_cases he : e.1 == p
    · have he2 : (e.1 == q) = false := by
        simp only [beq_eq_false_iff_ne]
        intro hq
        rw [eq_of_beq he] at hq
        exact h hq.symm
      simp only [List.filter, he, Bool.not_true, List.find?, he2] at ih ⊢
      exact ih
    · simp only [Bool.not_eq_true] at he
      simp only [List.filter, he, Bool.not_false, List.find?]
      by_cases hq : e.1 == q
      · simp [List.find?, hq]
      · simp only [Bool.not_eq_true] at hq
        simp only [List.find?, hq] at ih ⊢
        exact ih

/-- `Char.toNat` determines the character. -/
theorem char_toNat_inj {a b : Char} (h : a.toNat = b.toNat) : a = b := by
  have h2 := congrArg Char.ofNat h
  rwa [Char.ofNat_toNat, Char.ofNat_toNat] at h2

/-- `charListLt` is asymmetric. -/
theorem charListLt_asymm (x : List Char) :
    ∀ y, charListLt x y = true → charListLt y x = false := by
  induction x with
  | nil =>
    intro y h
    cases y with
    | nil => simp [charListLt] at h
    | cons b bs => rfl
  | cons a as ih =>
    intro y h
    cases y with
    | nil => simp [charListLt] at h
    | cons b bs =>
      by_cases hab : a = b
      · subst hab
        simp only [charListLt, if_pos rfl] at h ⊢
        exact ih bs h
      · have hba : ¬b = a := fun hh => hab hh.symm
        simp only [charListLt, if_neg hab, decide_eq_true_eq] at h
        simp only [charListLt, if_neg hba, decide_eq_false_iff_not]
        omega

/-- `charListLt` is transitive. -/
theorem charListLt_trans (x : List Char) :
    ∀ y z, charListLt x y = true → charListLt y z = true → charListLt x z = true := by
  induction x with
  | nil =>
    intro y z hxy hyz
    cases z with
    | nil => cases y <;> simp [charListLt] at hyz
    | cons c cs => rfl
  | cons a as ih =>
    intro y z hxy hyz
    cases y with
    | nil => simp [charListLt] at hxy
    | cons b bs =>
      cases z with
      | nil => simp [charListLt] at hyz
      | cons c cs =>
        by_cases hab : a = b
        · subst hab
          by_cases hbc : a = c
          · subst hbc
            simp only [charListLt, if_pos rfl] at hxy hyz ⊢
            exact ih bs cs hxy hyz
          · simp only [charListLt, if_pos rfl, if_neg hbc] at hxy hyz ⊢
            exact hyz
        · by_cases hbc : b = c
          · subst hbc
            simp only [charListLt, if_neg hab] at hxy ⊢
            exact hxy
          · have hxy2 : a.toNat < b.toNat := by
              simpa [charListLt, if_neg hab] using hxy
            have hyz2 : b.toNat < c.toNat := by
              simpa [charListLt, if_neg hbc] using hyz
            have hac : ¬a = c := by
              intro hh
              subst hh
              omega
            simp only [charListLt, if_neg hac, decide_eq_true_eq]
            omega

/-- Two lists neither of which is below the other are equal. -/
theorem charListLt_conn (x : List Char) :
    ∀ y, charListLt x y = false → charListLt y x = false → x = y := by
  induction x with
  | nil =>
    intro y h1 _
    cases y with
    | nil => rfl
    | cons b bs => simp [charListLt] at h1
  | cons a as ih =>
    intro y h1 h2
    cases y with
    | nil => simp [charListLt] at h2
    | cons b bs =>
      by_cases hab : a = b
      · subst hab
        simp only [charListLt, if_pos rfl] at h1 h2
        rw [ih bs h1 h2]
      · have hba : ¬b = a := fun hh => hab hh.symm
        have h1n : ¬a.toNat < b.toNat := by
          simpa [charListLt, if_neg hab] using h1
        have h2n : ¬b.toNat < a.toNat := by
          simpa [charListLt, if_neg hba] using h2
        exact absurd (char_toNat_inj (by omega)) hab

/-- Non-strict comparison (`¬ <` in each direction) is transitive. -/
theorem charListLt_le_trans (x y z : List Char)
    (h1 : charListLt y x = false) (h2 : charListLt z y = false) :
    charListLt z x = false := by
  cases hzx : charListLt z x with
  | false => rfl
  | true =>
    exfalso
    cases hyz : charListLt y z with
    | true =>
      have ht := charListLt_trans y z x hyz hzx
      rw [ht] at h1
      exact Bool.noConfusion h1
    | false =>
      have heq : y = z := charListLt_conn y z hyz h2
      subst heq
      rw [hzx] at h1
      exact Bool.noConfusion h1

/-- `entryLe` in terms of the two sort keys: folders strictly before files,
otherwise non-strict case-insensitive name order. -/
theorem entryLe_iff (a b : Entry) :
    entryLe a b = true ↔
      ((a.type = "folder" ∧ ¬b.type = "folder")
        ∨ ((a.type = "folder" ↔ b.type = "folder")
            ∧ strLt (strLower b.name) (strLower a.name) = false)) := by
  by_cases hfa : a.type = "folder" <;> by_cases hfb : b.type = "folder" <;>
    simp [entryLe, hfa, hfb, Bool.not_eq_true]

/-- `entryRel` is total. -/
theorem entryRel_total : ∀ a b : Entry, entryRel a b ∨ entryRel b a := by
  intro a b
  unfold entryRel
  rw [entryLe_iff, entryLe_iff]
  by_cases hfa : a.type = "folder" <;> by_cases hfb : b.type = "folder"
  · cases hl : strLt (strLower b.name) (strLower a.name) with
    | false => exact Or.inl (Or.inr ⟨by simp [hfa, hfb], rfl⟩)
    | true =>
      refine Or.inr (Or.inr ⟨by simp [hfa, hfb], ?_⟩)
      exact charListLt_asymm _ _ hl
  · exact Or.inl (Or.inl ⟨hfa, hfb⟩)
  · exact Or.inr (Or.inl ⟨hfb, hfa⟩)
  · cases hl : strLt (strLower b.name) (strLower a.name) with
    | false => exact Or.inl (Or.inr ⟨by simp [hfa, hfb], rfl⟩)
    | true =>
      refine Or.inr (Or.inr ⟨by simp [hfa, hfb], ?_⟩)
      exact charListLt_asymm _ _ hl

/-- `entryRel` is transitive. -/
theorem entryRel_trans : ∀ a b c : Entry, entryRel a b → entryRel b c → entryRel a c := by
  intro a b c hab hbc
  unfold entryRel at hab hbc ⊢
  rw [entryLe_iff] at hab hbc ⊢
  rcases hab with ⟨ha1, ha2⟩ | ⟨ha1, ha2⟩
  · rcases hbc with ⟨hb1, _⟩ | ⟨hb1, _⟩
    · exact absurd hb1 ha2
    · exact Or.inl ⟨ha1, fun hc => ha2 (hb1.mpr hc)⟩
  · rcases hbc with ⟨hb1, hb2⟩ | ⟨hb1, hb2⟩
    · exact Or.inl ⟨ha1.mpr hb1, hb2⟩
    · exact Or.inr ⟨ha1.trans hb1, charListLt_le_trans _ _ _ ha2 hb2⟩

/-! ## Claim theorems -/

/-- C1: path confinement.  For every caller-supplied relative path,
`safe_path` either fails with the HTTP 400 "Invalid path" error or returns a
resolved path equal to or a descendant of (i.e. extending) the resolved root;
the containment check is performed on the fully resolved path (leading
slashes stripped, joined to root, `.`/`..` collapsed): a nonempty input
resolving outside root fails and one resolving inside or equal to root
succeeds, and the empty input resolves to the root itself. -/
theorem safe_path_confinement (root : List String) (subpath : String) :
    safe_path root "" = .ok root
    ∧ (∀ e, safe_path root subpath = .error e → e = ⟨400, "Invalid path"⟩)
    ∧ (∀ t, safe_path root subpath = .ok t → root.isPrefixOf t = true)
    ∧ (subpath ≠ "" →
        (safe_path root subpath = .ok (resolvedTarget root subpath)
          ↔ root.isPrefixOf (resolvedTarget root subpath) = true)
        ∧ (safe_path root subpath = .error ⟨400, "Invalid path"⟩
          ↔ root.isPrefixOf (resolvedTarget root subpath) = false)) := by
  refine ⟨by simp [safe_path], ?_, ?_, ?_⟩
  · exact fun e h => safe_path_error_eq root subpath e h
  · exact fun t h => safe_path_ok_isPrefixOf root subpath t h
  · exact fun hne => safe_path_cases root subpath hne

/-- Witness for C1 at concrete inputs: the traversal payload `a/../../etc`
is rejected with 400 "Invalid path", while `sub/../mod.jar` resolves inside
the root and is accepted, and the empty path yields the root. -/
theorem safe_path_confinement_witness :
    (safe_path ["plugins"] "" = .ok ["plugins"]
      ∧ (∀ e, safe_path ["plugins"] "a/../../etc" = .error e → e = ⟨400, "Invalid path"⟩)
      ∧ (∀ t, safe_path ["plugins"] "a/../../etc" = .ok t →
          List.isPrefixOf ["plugins"] t = true)
      ∧ ("a/../../etc" ≠ "" →
          (safe_path ["plugins"] "a/../../etc" = .ok (resolvedTarget ["plugins"] "a/../../etc")
            ↔ List.isPrefixOf ["plugins"] (resolvedTarget ["plugins"] "a/../../etc") = true)
          ∧ (safe_path ["plugins"] "a/../../etc" = .error ⟨400, "Invalid path"⟩
            ↔ List.isPrefixOf ["plugins"] (resolvedTarget ["plugins"] "a/../../etc") = false)))
    ∧ safe_path ["plugins"] "a/../../etc" = .error ⟨400, "Invalid path"⟩
    ∧ safe_path ["plugins"] "sub/../mod.jar" = .ok ["plugins", "mod.jar"] :=
  ⟨safe_path_confinement ["plugins"] "a/../../etc", rfl, rfl⟩

/-- C2: swallow-then-verify.  `start_container` returns `.ok true` exactly
when the follow-up status read succeeds and finds the container present in
state RUNNING, and `stop_container` likewise with state EXITED; the outcome
of the mutation call itself (including a raised error) has no effect on the
result, so start returns true when the post-mutation status is RUNNING even
if the mutation call raised. -/
theorem swallow_then_verify (env env2 : MutEnv) (name : String) :
    ((start_container env name).1 = .ok true ↔
      ∃ cs, env.readOutcome = .ok cs ∧
        ∃ s, get_container_status cs name = some s ∧ s.state = "RUNNING")
    ∧ ((stop_container env name).1 = .ok true ↔
      ∃ cs, env.readOutcome = .ok cs ∧
        ∃ s, get_container_status cs name = some s ∧ s.state = "EXITED")
    ∧ (env.readOutcome = env2.readOutcome →
        (start_container env name).1 = (start_container env2 name).1
        ∧ (stop_container env name).1 = (stop_container env2 name).1)
    ∧ (start_container ⟨.error "mutation failed", .ok [⟨["/" ++ name], some "RUNNING"⟩]⟩ name).1
        = .ok true := by
  refine ⟨?_, ?_, ?_, ?_⟩
  · cases hr : env.readOutcome with
    | error e => simp [start_container, hr]
    | ok cs =>
      cases hs : get_container_status cs name with
      | none => simp [start_container, hr, hs]
      | some s =>
        simp only [start_container, hr, hs, Except.ok.injEq, beq_iff_eq]
        constructor
        · intro h
          exact ⟨cs, rfl, s, hs, h⟩
        · rintro ⟨cs1, rfl, s1, hs1, hrun⟩
          have h2 : some s = some s1 := hs.symm.trans hs1
          injection h2 with h3
          rw [h3]
          exact hrun
  · cases hr : env.readOutcome with
    | error e => simp [stop_container, hr]
    | ok cs =>
      cases hs : get_container_status cs name with
      | none => simp [stop_container, hr, hs]
      | some s =>
        simp only [stop_container, hr, hs, Except.ok.injEq, beq_iff_eq]
        constructor
        · intro h
          exact ⟨cs, rfl, s, hs, h⟩
        · rintro ⟨cs1, rfl, s1, hs1, hrun⟩
          have h2 : some s = some s1 := hs.symm.trans hs1
          injection h2 with h3
          rw [h3]
          exact hrun
  · intro hr
    constructor
    · simp [start_container, hr]
    · simp [stop_container, hr]
  · simp [start_container, get_container_status, nameMatches]

/-- Witness for C2 at a concrete environment: the mutation raises, the read
lists `/mc` in state RUNNING, and start returns `.ok true`. -/
theorem swallow_then_verify_witness :
    (((start_container ⟨.error "boom", .ok [⟨["/mc"], some "RUNNING"⟩]⟩ "mc").1 = .ok true ↔
      ∃ cs, (Except.ok [⟨["/mc"], some "RUNNING"⟩] : Except String (List RemoteContainer))
          = .ok cs ∧
        ∃ s, get_container_status cs "mc" = some s ∧ s.state = "RUNNING")
    ∧ ((stop_container ⟨.error "boom", .ok [⟨["/mc"], some "RUNNING"⟩]⟩ "mc").1 = .ok true ↔
      ∃ cs, (Except.ok [⟨["/mc"], some "RUNNING"⟩] : Except String (List RemoteContainer))
          = .ok cs ∧
        ∃ s, get_container_status cs "mc" = some s ∧ s.state = "EXITED")
    ∧ ((Except.ok [⟨["/mc"], some "RUNNING"⟩] : Except String (List RemoteContainer))
          = .ok [⟨["/mc"], some "RUNNING"⟩] →
        (start_container ⟨.error "boom", .ok [⟨["/mc"], some "RUNNING"⟩]⟩ "mc").1
            = (start_container ⟨.ok (), .ok [⟨["/mc"], some "RUNNING"⟩]⟩ "mc").1
        ∧ (stop_container ⟨.error "boom", .ok [⟨["/mc"], some "RUNNING"⟩]⟩ "mc").1
            = (stop_container ⟨.ok (), .ok [⟨["/mc"], some "RUNNING"⟩]⟩ "mc").1)
    ∧ (start_container ⟨.error "mutation failed", .ok [⟨["/mc"], some "RUNNING"⟩]⟩ "mc").1
        = .ok true) :=
  swallow_then_verify ⟨.error "boom", .ok [⟨["/mc"], some "RUNNING"⟩]⟩
    ⟨.ok (), .ok [⟨["/mc"], some "RUNNING"⟩]⟩ "mc"

/-- C3 as stated is false: when `stop_container`'s verification read raises a
transport error, `restart_container` propagates that error — here the start
phase would have returned `.ok true`, yet restart returns the error and the
start mutation is never issued (it does not appear in the trace). -/
theorem restart_counterexample :
    (restart_container
        ⟨⟨.ok (), .error "timeout"⟩, ⟨.ok (), .ok [⟨["/mc"], some "RUNNING"⟩]⟩⟩ "mc").1
      = .error "timeout"
    ∧ (start_container ⟨.ok (), .ok [⟨["/mc"], some "RUNNING"⟩]⟩ "mc").1 = .ok true
    ∧ (restart_container
          ⟨⟨.ok (), .error "timeout"⟩, ⟨.ok (), .ok [⟨["/mc"], some "RUNNING"⟩]⟩⟩ "mc").1
        ≠ (start_container ⟨.ok (), .ok [⟨["/mc"], some "RUNNING"⟩]⟩ "mc").1
    ∧ NetEvent.mutStart "mc" ∉
        (restart_container
          ⟨⟨.ok (), .error "timeout"⟩, ⟨.ok (), .ok [⟨["/mc"], some "RUNNING"⟩]⟩⟩ "mc").2 := by
  refine ⟨rfl, rfl, by decide, by decide⟩

/-- C3 (amended): whenever `stop_container` completes without raising — i.e.
returns a boolean, true or false — `restart_container` performs exactly the
sequence stop, fixed 2-second sleep, start, and returns exactly
`start_container`'s result, stop's boolean having no effect; when
`stop_container` raises (its verification read fails with a transport
error), the error propagates and the start mutation is not attempted. -/
theorem restart_sequence (env : RestartEnv) (name : String) :
    (∀ b, (stop_container env.stopEnv name).1 = .ok b →
      (restart_container env name).1 = (start_container env.startEnv name).1
      ∧ (restart_container env name).2
          = (stop_container env.stopEnv name).2
              ++ [.sleep 2] ++ (start_container env.startEnv name).2)
    ∧ (∀ e, (stop_container env.stopEnv name).1 = .error e →
      (restart_container env name).1 = .error e
      ∧ NetEvent.mutStart name ∉ (restart_container env name).2) := by
  cases hr : env.stopEnv.readOutcome with
  | error e =>
    constructor
    · intro b hb
      simp [stop_container, hr] at hb
    · intro e2 he2
      simp only [stop_container, hr] at he2 ⊢
      injection he2 with h3
      subst h3
      constructor
      · simp [restart_container, stop_container, hr]
      · simp [restart_container, stop_container, hr]
  | ok cs =>
    constructor
    · intro b hb
      constructor
      · simp [restart_container, stop_container, hr]
      · simp [restart_container, stop_container, hr]
    · intro e2 he2
      simp [stop_container, hr] at he2

/-- Witness for C3's amended theorem at a concrete environment where stop's
read succeeds (the container is not EXITED, so stop returns `.ok false`) and
start's read reports RUNNING. -/
theorem restart_sequence_witness :
    (∀ b, (stop_container (MutEnv.mk (.error "boom") (.ok [⟨["/mc"], some "RUNNING"⟩])) "mc").1
        = .ok b →
      (restart_container
          ⟨⟨.error "boom", .ok [⟨["/mc"], some "RUNNING"⟩]⟩,
            ⟨.ok (), .ok [⟨["/mc"], some "RUNNING"⟩]⟩⟩ "mc").1
        = (start_container (MutEnv.mk (.ok ()) (.ok [⟨["/mc"], some "RUNNING"⟩])) "mc").1
      ∧ (restart_container
          ⟨⟨.error "boom", .ok [⟨["/mc"], some "RUNNING"⟩]⟩,
            ⟨.ok (), .ok [⟨["/mc"], some "RUNNING"⟩]⟩⟩ "mc").2
        = (stop_container (MutEnv.mk (.error "boom") (.ok [⟨["/mc"], some "RUNNING"⟩])) "mc").2
            ++ [.sleep 2]
            ++ (start_container (MutEnv.mk (.ok ()) (.ok [⟨["/mc"], some "RUNNING"⟩])) "mc").2)
    ∧ (∀ e, (stop_container (MutEnv.mk (.error "boom") (.ok [⟨["/mc"], some "RUNNING"⟩])) "mc").1
        = .error e →
      (restart_container
          ⟨⟨.error "boom", .ok [⟨["/mc"], some "RUNNING"⟩]⟩,
            ⟨.ok (), .ok [⟨["/mc"], some "RUNNING"⟩]⟩⟩ "mc").1
        = .error e
      ∧ NetEvent.mutStart "mc" ∉
          (restart_container
            ⟨⟨.error "boom", .ok [⟨["/mc"], some "RUNNING"⟩]⟩,
              ⟨.ok (), .ok [⟨["/mc"], some "RUNNING"⟩]⟩⟩ "mc").2) :=
  restart_sequence
    ⟨⟨.error "boom", .ok [⟨["/mc"], some "RUNNING"⟩]⟩,
      ⟨.ok (), .ok [⟨["/mc"], some "RUNNING"⟩]⟩⟩ "mc"

/-- C4: `get_container_status` matches a remote container exactly when its
names list contains the queried name or the queried name prefixed with `/`;
on a match the returned status carries the queried name and the
first-matching container's reported state, on no match the result is `none`,
and a remote listing `["/x"]` in state RUNNING queried for the name `x`
yields the status with name `x` and state RUNNING. -/
theorem get_container_status_spec (cs : List RemoteContainer) (name : String) :
    ((get_container_status cs name).isSome = true ↔
      ∃ c ∈ cs, ("/" ++ name) ∈ c.names ∨ name ∈ c.names)
    ∧ (∀ s, get_container_status cs name = some s →
        s.name = name
        ∧ ∃ c ∈ cs, nameMatches name c = true ∧ s.state = c.state.getD "UNKNOWN")
    ∧ (get_container_status cs name = none ↔
        ∀ c ∈ cs, ¬(("/" ++ name) ∈ c.names ∨ name ∈ c.names))
    ∧ get_container_status [⟨["/" ++ name], some "RUNNING"⟩] name
        = some ⟨name, "RUNNING"⟩ := by
  refine ⟨?_, ?_, ?_, ?_⟩
  · cases hf : cs.find? (nameMatches name) with
    | none =>
      simp only [get_container_status, hf, Option.isSome_none]
      rw [List.find?_eq_none] at hf
      constructor
      · intro h
        cases h
      · rintro ⟨c, hc, hm⟩
        exact absurd ((nameMatches_iff name c).2 hm) (hf c hc)
    | some c =>
      simp only [get_container_status, hf, Option.isSome_some]
      exact iff_of_true trivial
        ⟨c, List.mem_of_find?_eq_some hf, (nameMatches_iff name c).1 (List.find?_some hf)⟩
  · intro s hs
    cases hf : cs.find? (nameMatches name) with
    | none => simp [get_container_status, hf] at hs
    | some c =>
      simp only [get_container_status, hf, Option.some.injEq] at hs
      subst hs
      exact ⟨rfl, c, List.mem_of_find?_eq_some hf, List.find?_some hf, rfl⟩
  · constructor
    · intro h c hc hm
      cases hf : cs.find? (nameMatches name) with
      | none =>
        rw [List.find?_eq_none] at hf
        exact hf c hc ((nameMatches_iff name c).2 hm)
      | some c2 => simp [get_container_status, hf] at h
    · intro h
      cases hf : cs.find? (nameMatches name) with
      | none => simp [get_container_status, hf]
      | some c2 =>
        exact absurd ((nameMatches_iff name c2).1 (List.find?_some hf))
          (h c2 (List.mem_of_find?_eq_some hf))
  · simp [get_container_status, nameMatches]

/-- Witness for C4 at a concrete containers list: the remote lists `["/x"]`
in state RUNNING and the query for `x` matches it. -/
theorem get_container_status_spec_witness :
    (((get_container_status [⟨["/x"], some "RUNNING"⟩] "x").isSome = true ↔
      ∃ c ∈ [(⟨["/x"], some "RUNNING"⟩ : RemoteContainer)],
        ("/" ++ "x") ∈ c.names ∨ "x" ∈ c.names)
    ∧ (∀ s, get_container_status [⟨["/x"], some "RUNNING"⟩] "x" = some s →
        s.name = "x"
        ∧ ∃ c ∈ [(⟨["/x"], some "RUNNING"⟩ : RemoteContainer)],
            nameMatches "x" c = true ∧ s.state = c.state.getD "UNKNOWN")
    ∧ (get_container_status [⟨["/x"], some "RUNNING"⟩] "x" = none ↔
        ∀ c ∈ [(⟨["/x"], some "RUNNING"⟩ : RemoteContainer)],
          ¬(("/" ++ "x") ∈ c.names ∨ "x" ∈ c.names))
    ∧ get_container_status [⟨["/" ++ "x"], some "RUNNING"⟩] "x"
        = some ⟨"x", "RUNNING"⟩) :=
  get_container_status_spec [⟨["/x"], some "RUNNING"⟩] "x"

/-- C5: upload filename sanitization.  With the target directory resolved and
existing, upload fails 400 "Invalid filename" exactly when the sanitized name
(`Path(filename).name`) is empty or dot-prefixed, and otherwise stores the
content under exactly the sanitized name inside the target directory, leaving
every other path untouched and never writing outside the root; in particular
`../../evil.txt` sanitizes to `evil.txt`, and `.hidden` is rejected. -/
theorem upload_sanitization (root : List String) (fs : FS) (filename path : String)
    (content : List Nat) (now : Nat) (target : List String) (m : Nat)
    (hsp : safe_path root path = .ok target)
    (hdir : fs.lookup target = some (.dir m))
    (hfn : filename ≠ "") :
    (pathName filename = "" ∨ startsWithDot (pathName filename) = true →
      upload_file root fs filename path content now = .error ⟨400, "Invalid filename"⟩)
    ∧ (pathName filename ≠ "" → startsWithDot (pathName filename) = false →
      upload_file root fs filename path content now
        = .ok (⟨pathName filename, content.length⟩,
               fs.setNode (target ++ [pathName filename]) (.file content now))
      ∧ root.isPrefixOf (target ++ [pathName filename]) = true
      ∧ (∀ q, q ≠ target ++ [pathName filename] →
          FS.lookup (fs.setNode (target ++ [pathName filename]) (.file content now)) q
            = fs.lookup q))
    ∧ pathName "../../evil.txt" = "evil.txt"
    ∧ startsWithDot (pathName ".hidden") = true
    ∧ upload_file ["plugins"] [(["plugins"], .dir 0)] ".hidden" "" [] 0
        = .error ⟨400, "Invalid filename"⟩ := by
  have hex : fs.pathExists target = true := by simp [FS.pathExists, hdir]
  have hid : fs.isDir target = true := by simp [FS.isDir, hdir]
  refine ⟨?_, ?_, rfl, rfl, rfl⟩
  · intro hbad
    rcases hbad with hb | hb
    · simp [upload_file, hfn, hsp, hex, hid, hb]
    · simp [upload_file, hfn, hsp, hex, hid, hb]
  · intro h1 h2
    refine ⟨?_, ?_, ?_⟩
    · simp [upload_file, hfn, hsp, hex, hid, h1, h2]
    · exact isPrefixOf_append root target [pathName filename]
        (safe_path_ok_isPrefixOf root path target hsp)
    · intro q hq
      exact FS.lookup_setNode_ne fs (target ++ [pathName filename]) q (.file content now) hq

/-- Witness for C5 at a concrete state: uploading `../../evil.txt` into the
root directory stores exactly `evil.txt` there. -/
theorem upload_sanitization_witness :
    ((pathName "../../evil.txt" = "" ∨ startsWithDot (pathName "../../evil.txt") = true →
      upload_file ["plugins"] [(["plugins"], FSNode.dir 0)] "../../evil.txt" "" [1, 2, 3] 9
        = .error ⟨400, "Invalid filename"⟩)
    ∧ (pathName "../../evil.txt" ≠ "" → startsWithDot (pathName "../../evil.txt") = false →
      upload_file ["plugins"] [(["plugins"], FSNode.dir 0)] "../../evil.txt" "" [1, 2, 3] 9
        = .ok (⟨pathName "../../evil.txt", List.length [1, 2, 3]⟩,
               FS.setNode [(["plugins"], FSNode.dir 0)]
                 (["plugins"] ++ [pathName "../../evil.txt"]) (.file [1, 2, 3] 9))
      ∧ List.isPrefixOf ["plugins"] (["plugins"] ++ [pathName "../../evil.txt"]) = true
      ∧ (∀ q, q ≠ ["plugins"] ++ [pathName "../../evil.txt"] →
          FS.lookup (FS.setNode [(["plugins"], FSNode.dir 0)]
              (["plugins"] ++ [pathName "../../evil.txt"]) (.file [1, 2, 3] 9)) q
            = FS.lookup [(["plugins"], FSNode.dir 0)] q))
    ∧ pathName "../../evil.txt" = "evil.txt"
    ∧ startsWithDot (pathName ".hidden") = true
    ∧ upload_file ["plugins"] [(["plugins"], .dir 0)] ".hidden" "" [] 0
        = .error ⟨400, "Invalid filename"⟩) :=
  upload_sanitization ["plugins"] [(["plugins"], FSNode.dir 0)] "../../evil.txt" ""
    [1, 2, 3] 9 ["plugins"] 0 rfl rfl (by decide)

/-- C6: delete never removes the root.  The empty path fails 400
"Path required" before resolving anything; any nonempty path whose resolved
target equals the resolved root fails 400 "Cannot delete root directory"
regardless of the root's contents; and `"."` is such a path. -/
theorem delete_root_protection (root : List String) (fs : FS) (path : String) (m : Nat)
    (hroot : fs.lookup root = some (.dir m))
    (hnorm : ∀ c ∈ root, c ≠ "" ∧ c ≠ "." ∧ c ≠ "..") :
    delete_item root fs "" = .error ⟨400, "Path required"⟩
    ∧ (∀ t, path ≠ "" → safe_path root path = .ok t → t = root →
        delete_item root fs path = .error ⟨400, "Cannot delete root directory"⟩)
    ∧ safe_path root "." = .ok root
    ∧ delete_item root fs "." = .error ⟨400, "Cannot delete root directory"⟩ := by
  have hdot := safe_path_dot root hnorm
  have hgen : ∀ p : String, p ≠ "" → safe_path root p = .ok root →
      delete_item root fs p = .error ⟨400, "Cannot delete root directory"⟩ := by
    intro p hp hsp
    have hex : fs.pathExists root = true := by simp [FS.pathExists, hroot]
    simp [delete_item, hp, hsp, hex]
  refine ⟨rfl, ?_, hdot, hgen "." (by decide) hdot⟩
  intro t hp hsp ht
  subst ht
  exact hgen path hp hsp

/-- Witness for C6 at a concrete root directory that has a child: deleting
`""` and `"."` both fail without removing anything. -/
theorem delete_root_protection_witness :
    (delete_item ["plugins"] [(["plugins"], FSNode.dir 0), (["plugins", "x"], FSNode.file [] 0)] ""
        = .error ⟨400, "Path required"⟩
    ∧ (∀ t, "." ≠ "" →
        safe_path ["plugins"] "." = .ok t → t = ["plugins"] →
        delete_item ["plugins"]
            [(["plugins"], FSNode.dir 0), (["plugins", "x"], FSNode.file [] 0)] "."
          = .error ⟨400, "Cannot delete root directory"⟩)
    ∧ safe_path ["plugins"] "." = .ok ["plugins"]
    ∧ delete_item ["plugins"]
          [(["plugins"], FSNode.dir 0), (["plugins", "x"], FSNode.file [] 0)] "."
        = .error ⟨400, "Cannot delete root directory"⟩) :=
  delete_root_protection ["plugins"]
    [(["plugins"], FSNode.dir 0), (["plugins", "x"], FSNode.file [] 0)] "." 0 rfl (by decide)

/-- C7: delete removes an existing file unconditionally; an existing
directory with any child fails 400 "Folder is not empty" (and, errors
carrying no state, nothing is changed), and an empty directory is removed;
concretely, deleting a directory holding one file fails NotEmpty, deleting
that file succeeds, and the same delete then succeeds. -/
theorem delete_semantics (root : List String) (fs : FS) (path : String) (target : List String)
    (hsp : safe_path root path = .ok target) (hne : path ≠ "") (hnr : target ≠ root) :
    (∀ c m, fs.lookup target = some (.file c m) →
      delete_item root fs path = .ok (path, fs.remove target))
    ∧ (∀ m, fs.lookup target = some (.dir m) → fs.children target ≠ [] →
      delete_item root fs path = .error ⟨400, "Folder is not empty"⟩)
    ∧ (∀ m, fs.lookup target = some (.dir m) → fs.children target = [] →
      delete_item root fs path = .ok (path, fs.remove target))
    ∧ delete_item ["plugins"]
        [(["plugins"], .dir 0), (["plugins", "d"], .dir 0), (["plugins", "d", "f"], .file [] 0)]
        "d" = .error ⟨400, "Folder is not empty"⟩
    ∧ delete_item ["plugins"]
        [(["plugins"], .dir 0), (["plugins", "d"], .dir 0), (["plugins", "d", "f"], .file [] 0)]
        "d/f" = .ok ("d/f", [(["plugins"], .dir 0), (["plugins", "d"], .dir 0)])
    ∧ delete_item ["plugins"] [(["plugins"], .dir 0), (["plugins", "d"], .dir 0)] "d"
        = .ok ("d", [(["plugins"], .dir 0)]) := by
  have hbr : (target == root) = false := beq_eq_false_iff_ne.mpr hnr
  refine ⟨?_, ?_, ?_, rfl, rfl, rfl⟩
  · intro c m hl
    have hex : fs.pathExists target = true := by simp [FS.pathExists, hl]
    simp [delete_item, hne, hsp, hex, hbr, hl]
  · intro m hl hch
    have hex : fs.pathExists target = true := by simp [FS.pathExists, hl]
    have hch2 : (fs.children target).isEmpty = false := by
      cases hc : fs.children target with
      | nil => exact absurd hc hch
      | cons a as => rfl
    simp [delete_item, hne, hsp, hex, hbr, hl, hch2]
  · intro m hl hch
    have hex : fs.pathExists target = true := by simp [FS.pathExists, hl]
    simp [delete_item, hne, hsp, hex, hbr, hl, hch]

/-- Witness for C7 at the concrete two-step scenario from the spec. -/
theorem delete_semantics_witness :
    ((∀ c m,
      FS.lookup [(["plugins"], FSNode.dir 0), (["plugins", "d"], FSNode.dir 0),
          (["plugins", "d", "f"], FSNode.file [] 0)] ["plugins", "d"]
        = some (.file c m) →
      delete_item ["plugins"]
          [(["plugins"], FSNode.dir 0), (["plugins", "d"], FSNode.dir 0),
            (["plugins", "d", "f"], FSNode.file [] 0)] "d"
        = .ok ("d", FS.remove [(["plugins"], FSNode.dir 0), (["plugins", "d"], FSNode.dir 0),
            (["plugins", "d", "f"], FSNode.file [] 0)] ["plugins", "d"]))
    ∧ (∀ m,
      FS.lookup [(["plugins"], FSNode.dir 0), (["plugins", "d"], FSNode.dir 0),
          (["plugins", "d", "f"], FSNode.file [] 0)] ["plugins", "d"]
        = some (.dir m) →
      FS.children [(["plugins"], FSNode.dir 0), (["plugins", "d"], FSNode.dir 0),
          (["plugins", "d", "f"], FSNode.file [] 0)] ["plugins", "d"] ≠ [] →
      delete_item ["plugins"]
          [(["plugins"], FSNode.dir 0), (["plugins", "d"], FSNode.dir 0),
            (["plugins", "d", "f"], FSNode.file [] 0)] "d"
        = .error ⟨400, "Folder is not empty"⟩)
    ∧ (∀ m,
      FS.lookup [(["plugins"], FSNode.dir 0), (["plugins", "d"], FSNode.dir 0),
          (["plugins", "d", "f"], FSNode.file [] 0)] ["plugins", "d"]
        = some (.dir m) →
      FS.children [(["plugins"], FSNode.dir 0), (["plugins", "d"], FSNode.dir 0),
          (["plugins", "d", "f"], FSNode.file [] 0)] ["plugins", "d"] = [] →
      delete_item ["plugins"]
          [(["plugins"], FSNode.dir 0), (["plugins", "d"], FSNode.dir 0),
            (["plugins", "d", "f"], FSNode.file [] 0)] "d"
        = .ok ("d", FS.remove [(["plugins"], FSNode.dir 0), (["plugins", "d"], FSNode.dir 0),
            (["plugins", "d", "f"], FSNode.file [] 0)] ["plugins", "d"]))
    ∧ delete_item ["plugins"]
        [(["plugins"], .dir 0), (["plugins", "d"], .dir 0), (["plugins", "d", "f"], .file [] 0)]
        "d" = .error ⟨400, "Folder is not empty"⟩
    ∧ delete_item ["plugins"]
        [(["plugins"], .dir 0), (["plugins", "d"], .dir 0), (["plugins", "d", "f"], .file [] 0)]
        "d/f" = .ok ("d/f", [(["plugins"], .dir 0), (["plugins", "d"], .dir 0)])
    ∧ delete_item ["plugins"] [(["plugins"], .dir 0), (["plugins", "d"], .dir 0)] "d"
        = .ok ("d", [(["plugins"], .dir 0)])) :=
  delete_semantics ["plugins"]
    [(["plugins"], FSNode.dir 0), (["plugins", "d"], FSNode.dir 0),
      (["plugins", "d", "f"], FSNode.file [] 0)] "d" ["plugins", "d"]
    rfl (by decide) (by decide)

/-- C8: createFolder collision handling.  With the parent resolved and
existing as a directory and a valid sanitized name, the call succeeds when
the target does not yet exist and fails 400 "Folder already exists" when it
does; hence two identical calls have the first succeed and the second fail
(errors carrying no state, the failing call changes nothing). -/
theorem mkdir_collision (root : List String) (fs : FS) (name path : String)
    (target : List String) (m now now2 : Nat)
    (hsp : safe_path root path = .ok target)
    (hdir : fs.lookup target = some (.dir m))
    (hn1 : pathName name ≠ "") (hn2 : startsWithDot (pathName name) = false) :
    (fs.lookup (target ++ [pathName name]) = none →
      create_folder root fs name path now
        = .ok (pathName name, fs.setNode (target ++ [pathName name]) (.dir now)))
    ∧ ((fs.lookup (target ++ [pathName name])).isSome = true →
      create_folder root fs name path now = .error ⟨400, "Folder already exists"⟩)
    ∧ (fs.lookup (target ++ [pathName name]) = none →
      create_folder root (fs.setNode (target ++ [pathName name]) (.dir now)) name path now2
        = .error ⟨400, "Folder already exists"⟩) := by
  have hex : fs.pathExists target = true := by simp [FS.pathExists, hdir]
  have hid : fs.isDir target = true := by simp [FS.isDir, hdir]
  refine ⟨?_, ?_, ?_⟩
  · intro hnone
    have hex2 : fs.pathExists (target ++ [pathName name]) = false := by
      simp [FS.pathExists, hnone]
    simp [create_folder, hsp, hex, hn1, hn2, hex2, hid]
  · intro hsome
    have hex2 : fs.pathExists (target ++ [pathName name]) = true := hsome
    simp [create_folder, hsp, hex, hn1, hn2, hex2]
  · intro hnone
    have hne2 : target ≠ target ++ [pathName name] :=
      self_ne_append_singleton target (pathName name)
    have hl1 : (fs.setNode (target ++ [pathName name]) (.dir now)).lookup target
        = some (.dir m) := by
      rw [FS.lookup_setNode_ne fs (target ++ [pathName name]) target (.dir now) hne2]
      exact hdir
    have hex1 : (fs.setNode (target ++ [pathName name]) (.dir now)).pathExists target = true := by
      simp [FS.pathExists, hl1]
    have hex2 : (fs.setNode (target ++ [pathName name]) (.dir now)).pathExists
        (target ++ [pathName name]) = true := by
      simp [FS.pathExists, FS.lookup_setNode_self]
    simp [create_folder, hsp, hex1, hn1, hn2, hex2]

/-- Witness for C8: creating `world` in the root succeeds, and creating it
again fails with "Folder already exists". -/
theorem mkdir_collision_witness :
    ((FS.lookup [(["plugins"], FSNode.dir 0)] (["plugins"] ++ [pathName "world"]) = none →
      create_folder ["plugins"] [(["plugins"], FSNode.dir 0)] "world" "" 3
        = .ok (pathName "world",
               FS.setNode [(["plugins"], FSNode.dir 0)] (["plugins"] ++ [pathName "world"])
                 (.dir 3)))
    ∧ ((FS.lookup [(["plugins"], FSNode.dir 0)] (["plugins"] ++ [pathName "world"])).isSome
          = true →
      create_folder ["plugins"] [(["plugins"], FSNode.dir 0)] "world" "" 3
        = .error ⟨400, "Folder already exists"⟩)
    ∧ (FS.lookup [(["plugins"], FSNode.dir 0)] (["plugins"] ++ [pathName "world"]) = none →
      create_folder ["plugins"]
          (FS.setNode [(["plugins"], FSNode.dir 0)] (["plugins"] ++ [pathName "world"]) (.dir 3))
          "world" "" 4
        = .error ⟨400, "Folder already exists"⟩)) :=
  mkdir_collision ["plugins"] [(["plugins"], FSNode.dir 0)] "world" "" ["plugins"] 0 3 4
    rfl rfl (by decide) rfl

/-- C9: every successful listing has its entries sorted by the strict
two-key ordering — folders before files, then case-insensitive name
ascending — and the entries are exactly (a permutation of) the directory's
children; the ordering is the stated one by `entryLe_iff`, the function is
deterministic, and the concrete directory {b.txt, A, a.txt} (A a folder)
lists as [A, a.txt, b.txt]. -/
theorem list_files_order (root : List String) (fs : FS) (path : String) (resp : ListResponse)
    (h : list_files root fs path = .ok resp) :
    resp.items.Pairwise (fun a b => entryLe a b = true)
    ∧ (∀ t, safe_path root path = .ok t → resp.items.Perm ((fs.children t).map entryOf))
    ∧ (∀ a b, entryLe a b = true ↔
        ((a.type = "folder" ∧ ¬b.type = "folder")
          ∨ ((a.type = "folder" ↔ b.type = "folder")
              ∧ strLt (strLower b.name) (strLower a.name) = false)))
    ∧ list_files ["plugins"]
        [(["plugins"], .dir 0), (["plugins", "b.txt"], .file [] 5),
         (["plugins", "A"], .dir 7), (["plugins", "a.txt"], .file [1] 6)] ""
      = .ok ⟨"", [],
          [⟨"A", "folder", none, 7⟩, ⟨"a.txt", "file", some 1, 6⟩,
           ⟨"b.txt", "file", some 0, 5⟩]⟩ := by
  cases hsp : safe_path root path with
  | error e => simp [list_files, hsp] at h
  | ok target =>
    cases hex : fs.pathExists target with
    | false => simp [list_files, hsp, hex] at h
    | true =>
      cases hid : fs.isDir target with
      | false => simp [list_files, hsp, hex, hid] at h
      | true =>
        have h2 : Except.ok (ListResponse.mk
            (joinSlash (target.drop root.length))
            ((List.range (target.drop root.length).length).map
              (fun i => ⟨((target.drop root.length).drop i).headD "",
                         joinSlash ((target.drop root.length).take (i + 1))⟩))
            (entrySort ((fs.children target).map entryOf)))
            = (Except.ok resp : Except HTTPError ListResponse) := by
          rw [← h]
          simp [list_files, hsp, hex, hid]
        injection h2 with h3
        subst h3
        refine ⟨?_, ?_, ?_, rfl⟩
        · exact @List.sorted_insertionSort Entry entryRel entryRelDec
            ⟨entryRel_total⟩ ⟨entryRel_trans⟩ ((fs.children target).map entryOf)
        · intro t ht
          injection ht with h5
          subst h5
          exact List.perm_insertionSort entryRel ((fs.children target).map entryOf)
        · exact fun a b => entryLe_iff a b

/-- Witness for C9 at the concrete directory {b.txt, A, a.txt}. -/
theorem list_files_order_witness :
    ((List.Pairwise (fun a b => entryLe a b = true)
        (ListResponse.mk ""  []
          [⟨"A", "folder", none, 7⟩, ⟨"a.txt", "file", some 1, 6⟩,
           ⟨"b.txt", "file", some 0, 5⟩]).items)
    ∧ (∀ t, safe_path ["plugins"] "" = .ok t →
        List.Perm (ListResponse.mk "" []
            [⟨"A", "folder", none, 7⟩, ⟨"a.txt", "file", some 1, 6⟩,
             ⟨"b.txt", "file", some 0, 5⟩]).items
          ((FS.children
              [(["plugins"], FSNode.dir 0), (["plugins", "b.txt"], FSNode.file [] 5),
               (["plugins", "A"], FSNode.dir 7), (["plugins", "a.txt"], FSNode.file [1] 6)]
              t).map entryOf))
    ∧ (∀ a b, entryLe a b = true ↔
        ((a.type = "folder" ∧ ¬b.type = "folder")
          ∨ ((a.type = "folder" ↔ b.type = "folder")
              ∧ strLt (strLower b.name) (strLower a.name) = false)))
    ∧ list_files ["plugins"]
        [(["plugins"], .dir 0), (["plugins", "b.txt"], .file [] 5),
         (["plugins", "A"], .dir 7), (["plugins", "a.txt"], .file [1] 6)] ""
      = .ok ⟨"", [],
          [⟨"A", "folder", none, 7⟩, ⟨"a.txt", "file", some 1, 6⟩,
           ⟨"b.txt", "file", some 0, 5⟩]⟩) :=
  list_files_order ["plugins"]
    [(["plugins"], FSNode.dir 0), (["plugins", "b.txt"], FSNode.file [] 5),
     (["plugins", "A"], FSNode.dir 7), (["plugins", "a.txt"], FSNode.file [1] 6)] ""
    (ListResponse.mk "" []
      [⟨"A", "folder", none, 7⟩, ⟨"a.txt", "file", some 1, 6⟩,
       ⟨"b.txt", "file", some 0, 5⟩]) rfl

/-- C10 (implicit): `create_folder` checks only that the resolved parent
exists, not that it is a directory; when the parent is an existing regular
file, the existence and collision checks pass and the failure comes from the
`mkdir` call, reported as a generic 500 — while `list_files` and
`upload_file` on the same state fail with the 400 "Not a directory" client
error. -/
theorem mkdir_file_parent (root : List String) (fs : FS) (name path : String)
    (target : List String) (c : List Nat) (m now : Nat)
    (hsp : safe_path root path = .ok target)
    (hfile : fs.lookup target = some (.file c m))
    (hn1 : pathName name ≠ "") (hn2 : startsWithDot (pathName name) = false)
    (hcol : fs.lookup (target ++ [pathName name]) = none) :
    (∃ d, create_folder root fs name path now = .error d ∧ d.status = 500)
    ∧ list_files root fs path = .error ⟨400, "Not a directory"⟩
    ∧ (∀ filename content now2, filename ≠ "" →
        upload_file root fs filename path content now2 = .error ⟨400, "Not a directory"⟩) := by
  have hex : fs.pathExists target = true := by simp [FS.pathExists, hfile]
  have hid : fs.isDir target = false := by simp [FS.isDir, hfile]
  have hex2 : fs.pathExists (target ++ [pathName name]) = false := by
    simp [FS.pathExists, hcol]
  refine ⟨⟨⟨500, "NotADirectoryError"⟩, ?_, rfl⟩, ?_, ?_⟩
  · simp [create_folder, hsp, hex, hn1, hn2, hex2, hid]
  · simp [list_files, hsp, hex, hid]
  · intro filename content now2 hfn
    simp [upload_file, hfn, hsp, hex, hid]

/-- Witness for C10: with the parent path `pf` being a regular file, mkdir
returns a 500 while list and upload return 400 "Not a directory". -/
theorem mkdir_file_parent_witness :
    ((∃ d, create_folder ["plugins"]
          [(["plugins"], FSNode.dir 0), (["plugins", "pf"], FSNode.file [7] 1)] "new" "pf" 2
        = .error d ∧ d.status = 500)
    ∧ list_files ["plugins"]
          [(["plugins"], FSNode.dir 0), (["plugins", "pf"], FSNode.file [7] 1)] "pf"
        = .error ⟨400, "Not a directory"⟩
    ∧ (∀ filename content now2, filename ≠ "" →
        upload_file ["plugins"]
            [(["plugins"], FSNode.dir 0), (["plugins", "pf"], FSNode.file [7] 1)]
            filename "pf" content now2
          = .error ⟨400, "Not a directory"⟩)) :=
  mkdir_file_parent ["plugins"]
    [(["plugins"], FSNode.dir 0), (["plugins", "pf"], FSNode.file [7] 1)] "new" "pf"
    ["plugins", "pf"] [7] 1 2 rfl rfl (by decide) rfl rfl
